import Mathlib

/-!
Verification of the bittensor client-side call abstraction: the
text-to-image dendrite (src/bittensor/_dendrite/text_to_image/dendrite.py)
and the text-causal-LM dendrite
(src/bittensor/_synapse/text_causal_lm/dendrite.py), together with the
endpoint-client call lifecycle they drive.  Parts of the repository that
these files call into but that are not present in the sources
(bittensor.Dendrite.apply, the serializer registry, the receptor and
wallet collaborators) are modelled from the specification and marked as
such in their doc comments.
-/

namespace Bittensor

/-- Serialized payload bytes, modelled as a list of naturals. -/
abbrev Bytes := List Nat

/-- A flat tensor payload: a logical shape together with flat integer
data.  Models the torch tensor payloads moved through the serializers. -/
structure Tensor where
  shape : List Nat
  data : List Int
deriving DecidableEq, Repr

/-- Zigzag map from integers to naturals, used by the modelled MSGPACK
serializer to put integer data on the wire. -/
def zigzag (i : Int) : Nat :=
  if 0 ≤ i then 2 * i.toNat else 2 * (-i).toNat - 1

/-- Inverse of the zigzag map. -/
def unzigzag (n : Nat) : Int :=
  if n % 2 = 0 then ((n / 2 : Nat) : Int) else -(((n + 1) / 2 : Nat) : Int)

theorem unzigzag_zigzag (i : Int) : unzigzag (zigzag i) = i := by
  unfold zigzag unzigzag
  by_cases h : 0 ≤ i
  · simp only [if_pos h]
    have h2 : (2 * i.toNat) % 2 = 0 := by omega
    simp only [if_pos h2]
    omega
  · simp only [if_neg h]
    have h1 : 1 ≤ (-i).toNat := by omega
    have h2 : (2 * (-i).toNat - 1) % 2 = 1 := by omega
    simp only [h2]
    norm_num
    omega

/-- Length-prefixed encoding of a list of naturals. -/
def encodeNatList (l : List Nat) : Bytes := l.length :: l

/-- Length-prefixed encoding of a list of integers, each sent through the
zigzag map. -/
def encodeIntList (l : List Int) : Bytes := l.length :: l.map zigzag

/-- Decoder matching encodeNatList; returns the decoded list and the
remaining bytes, or none when the prefix runs past the input. -/
def decodeNatList : Bytes → Option (List Nat × Bytes)
  | [] => none
  | n :: rest => if n ≤ rest.length then some (rest.take n, rest.drop n) else none

/-- Decoder matching encodeIntList. -/
def decodeIntList : Bytes → Option (List Int × Bytes)
  | [] => none
  | n :: rest =>
      if n ≤ rest.length then some ((rest.take n).map unzigzag, rest.drop n) else none

theorem decodeNatList_encodeNatList (l : List Nat) (rest : Bytes) :
    decodeNatList (encodeNatList l ++ rest) = some (l, rest) := by
  simp [encodeNatList, decodeNatList, List.take_left, List.drop_left]

theorem map_unzigzag_map_zigzag (l : List Int) :
    (l.map zigzag).map unzigzag = l := by
  induction l with
  | nil => rfl
  | cons x xs ih => simp [List.map_cons, unzigzag_zigzag, ih]

theorem map_unzigzag_comp (l : List Int) :
    List.map (unzigzag ∘ zigzag) l = l := by
  induction l with
  | nil => rfl
  | cons x xs ih => simp [List.map_cons, Function.comp, unzigzag_zigzag, ih]

theorem decodeIntList_encodeIntList (l : List Int) (rest : Bytes) :
    decodeIntList (encodeIntList l ++ rest) = some (l, rest) := by
  simp only [encodeIntList, List.cons_append, decodeIntList]
  have hlen : l.length = (l.map zigzag).length := (List.length_map l zigzag).symm
  rw [hlen]
  simp [List.take_left, List.drop_left, map_unzigzag_comp]

/-- Modelled from the spec: the MSGPACK tensor encoder of the serializer
registry (bittensor.serializer is not in src).  Encodes shape then data,
each length-prefixed. -/
def msgpackEncode (t : Tensor) : Bytes :=
  encodeNatList t.shape ++ encodeIntList t.data

/-- Modelled from the spec: the MSGPACK tensor decoder; fails (returns
none) when the bytes cannot be interpreted as a serialized tensor. -/
def msgpackDecode (b : Bytes) : Option Tensor :=
  match decodeNatList b with
  | none => none
  | some (shape, rest) =>
    match decodeIntList rest with
    | none => none
    | some (data, rest2) => if rest2 = [] then some ⟨shape, data⟩ else none

theorem msgpackDecode_msgpackEncode (t : Tensor) :
    msgpackDecode (msgpackEncode t) = some t := by
  unfold msgpackEncode msgpackDecode
  have h := decodeIntList_encodeIntList t.data []
  rw [List.append_nil] at h
  rw [decodeNatList_encodeNatList]
  simp [h]

/-- Serializer identifiers (bittensor.proto.Serializer). -/
inductive SerializerType
  | MSGPACK
deriving DecidableEq, Repr

/-- One serializer registry entry: an encode/decode pair for tensors. -/
structure SerializerEntry where
  encode : Tensor → Bytes
  decode : Bytes → Option Tensor

/-- The MSGPACK registry entry. -/
def msgpackEntry : SerializerEntry := ⟨msgpackEncode, msgpackDecode⟩

/-- Modelled from the spec: the process-wide serializer registry mapping
a serializer identifier to its encode/decode pair. -/
def serializerRegistry : List (SerializerType × SerializerEntry) :=
  [(SerializerType.MSGPACK, msgpackEntry)]

/-- Modelled from the spec: bittensor.serializer, the lookup used by the
causal-LM dendrite to obtain the configured serializer. -/
def serializer : SerializerType → SerializerEntry
  | SerializerType.MSGPACK => msgpackEntry

/-- Modelled from the spec: the protocol-wide block-time constant
(bittensor.blocktime, the default timeout; its value is not in src). -/
def blocktime : Nat := 12

/-- Initial value of the image output field of a text-to-image call
(class attribute image: bytes = empty bytes). -/
def emptyImage : Bytes := []

/-- Call descriptor of the text-to-image modality
(class TextToImageForwardCall in src). -/
structure TextToImageForwardCall where
  text : String
  timeout : Nat
  image : Bytes
deriving DecidableEq, Repr

namespace TextToImageForwardCall

/-- Class attribute name of the call descriptor. -/
def name : String := "text_to_image_forward"

/-- Class attribute is_forward of the call descriptor. -/
def is_forward : Bool := true

/-- Constructor of TextToImageForwardCall: stores the text and timeout;
the image output field keeps its class default, the empty bytes. -/
def init (text : String) (timeout : Nat) : TextToImageForwardCall :=
  { text := text, timeout := timeout, image := emptyImage }

end TextToImageForwardCall

/-- Wire request of the text-to-image forward call
(bittensor.proto.ForwardTextToImageRequest). -/
structure ForwardTextToImageRequest where
  text : String
deriving DecidableEq, Repr

/-- Wire response of the text-to-image forward call
(bittensor.proto.ForwardTextToImageResponse). -/
structure ForwardTextToImageResponse where
  image : Bytes
deriving DecidableEq, Repr

namespace TextToImageForwardCall

/-- get_request_proto of TextToImageForwardCall: builds the wire request
from the stored text. -/
def get_request_proto (c : TextToImageForwardCall) : ForwardTextToImageRequest :=
  { text := c.text }

/-- State-passing form of get_request_proto: the method body contains no
assignment, so the descriptor comes back unchanged next to the request. -/
def get_request_proto_run (c : TextToImageForwardCall) :
    ForwardTextToImageRequest × TextToImageForwardCall :=
  ({ text := c.text }, c)

/-- apply_response_proto of TextToImageForwardCall: stores the image from
the response into the descriptor. -/
def apply_response_proto (c : TextToImageForwardCall)
    (response_proto : ForwardTextToImageResponse) : TextToImageForwardCall :=
  { c with image := response_proto.image }

/-- get_inputs_shape of TextToImageForwardCall: the singleton shape
holding the length of the text. -/
def get_inputs_shape (c : TextToImageForwardCall) : List Nat :=
  [c.text.length]

/-- get_outputs_shape of TextToImageForwardCall: the singleton shape
holding the length of the image bytes. -/
def get_outputs_shape (c : TextToImageForwardCall) : List Nat :=
  [c.image.length]

end TextToImageForwardCall

/-- Decoding of the wire bytes of a text-to-image response into the
response message: the image bytes, length-prefixed; fails (none) when
the bytes cannot be interpreted. -/
def decodeForwardTextToImageResponse (b : Bytes) : Option ForwardTextToImageResponse :=
  match decodeNatList b with
  | some (img, []) => some { image := img }
  | _ => none

/-- Error taxonomy of the call lifecycle (spec section 7). -/
inductive CallError
  | SerializationError
  | TransportError
  | TimeoutError
  | MalformedResponseError
deriving DecidableEq, Repr

/-- Terminal and intermediate states of the endpoint-client call state
machine (spec section 4.2). -/
inductive CallState
  | Created
  | Serializing
  | Dispatched
  | AwaitingResponse
  | Completed
  | Failed (e : CallError)
  | TimedOut
deriving DecidableEq, Repr

/-- Behaviour of the transport for one invocation: it answers with wire
bytes after some delay, fails at the transport level after some delay,
or never answers at all. -/
inductive TransportBehaviour
  | respondsAt (t : Nat) (payload : Bytes)
  | failsAt (t : Nat)
  | never
deriving DecidableEq, Repr

/-- Outcome of driving one text-to-image call to a terminal state: the
final descriptor, the terminal state and the elapsed time. -/
structure ApplyResult where
  call : TextToImageForwardCall
  state : CallState
  elapsed : Nat
deriving DecidableEq, Repr

/-- Modelled from the spec: bittensor.Dendrite.apply (not in src), the
endpoint-client lifecycle of spec section 4.2 driving a text-to-image
descriptor through dispatch, the await bounded by the descriptor
timeout, decode and apply_response_proto.  Errors are attached to the
terminal result rather than thrown (spec section 7). -/
def Dendrite.apply (fc : TextToImageForwardCall) (transport : TransportBehaviour) :
    ApplyResult :=
  match transport with
  | TransportBehaviour.never =>
      { call := fc, state := CallState.TimedOut, elapsed := fc.timeout }
  | TransportBehaviour.failsAt t =>
      if fc.timeout ≤ t then
        { call := fc, state := CallState.TimedOut, elapsed := fc.timeout }
      else
        { call := fc, state := CallState.Failed CallError.TransportError, elapsed := t }
  | TransportBehaviour.respondsAt t payload =>
      if fc.timeout ≤ t then
        { call := fc, state := CallState.TimedOut, elapsed := fc.timeout }
      else
        match decodeForwardTextToImageResponse payload with
        | none =>
            { call := fc, state := CallState.Failed CallError.MalformedResponseError,
              elapsed := t }
        | some resp =>
            { call := fc.apply_response_proto resp, state := CallState.Completed,
              elapsed := t }

/-- What a text-to-image facade call hands back to its caller: the full
terminal descriptor when return_call is true, otherwise only the image
payload field. -/
inductive ForwardResult
  | callR (r : ApplyResult)
  | imageR (b : Bytes)
deriving DecidableEq, Repr

/-- The error the caller can observe in a facade result: a failed or
timed-out state attached to a returned descriptor; a bare payload
carries no error. -/
def surfacedError : ForwardResult → Option CallError
  | ForwardResult.callR r =>
      match r.state with
      | CallState.Failed e => some e
      | CallState.TimedOut => some CallError.TimeoutError
      | _ => none
  | ForwardResult.imageR _ => none

namespace TextToImageDendrite

/-- TextToImageDendrite.forward: constructs the descriptor, drives it to
a terminal state through Dendrite.apply on the event loop, and returns
the descriptor or only its image field. -/
def forward (text : String) (timeout : Nat) (return_call : Bool)
    (transport : TransportBehaviour) : ForwardResult :=
  let forward_call := TextToImageForwardCall.init text timeout
  let response_call := Dendrite.apply forward_call transport
  if return_call then ForwardResult.callR response_call
  else ForwardResult.imageR response_call.call.image

/-- TextToImageDendrite.async_forward: constructs the descriptor, awaits
Dendrite.apply, and returns the descriptor or only its image field. -/
def async_forward (text : String) (timeout : Nat) (return_call : Bool)
    (transport : TransportBehaviour) : ForwardResult :=
  let forward_call := TextToImageForwardCall.init text timeout
  let forward_call2 := Dendrite.apply forward_call transport
  if return_call then ForwardResult.callR forward_call2
  else ForwardResult.imageR forward_call2.call.image

end TextToImageDendrite

/-- Modelled from the spec: a bittensor wallet, the caller-owned signing
capability (bittensor.wallet is not in src). -/
structure Wallet where
  name : String
deriving DecidableEq, Repr

/-- Modelled from the spec: the freshly constructed default wallet that
the bittensor.wallet constructor returns when called with no
arguments. -/
def defaultWallet : Wallet := { name := "default" }

/-- Modelled from the spec: a bittensor endpoint, the address plus
identity of one remote peer (bittensor.Endpoint is not in src). -/
structure Endpoint where
  data : List Int
deriving DecidableEq, Repr

namespace endpoint

/-- Modelled from the spec: bittensor.endpoint.from_tensor (not in src),
converting a tensor encoding of an endpoint into an endpoint object. -/
def from_tensor (t : Tensor) : Endpoint := { data := t.data }

end endpoint

/-- Modelled from the spec: a bittensor receptor (not in src), holding
the endpoint and wallet of one remote peer and exposing the signing
capability used for call metadata. -/
structure Receptor where
  endpoint : Endpoint
  wallet : Wallet
deriving DecidableEq, Repr

/-- Modelled from the spec: Receptor.sign, the signer boundary producing
a signature string, deterministic per call context. -/
def Receptor.sign (r : Receptor) : String :=
  r.wallet.name ++ toString r.endpoint.data.length

/-- The wallet argument of the TextCausalLMDendrite constructor as the
Python caller can pass it: None or a wallet object. -/
inductive WalletArg
  | noneV
  | walletV (w : Wallet)
deriving DecidableEq, Repr

/-- The endpoint argument of the TextCausalLMDendrite constructor as the
Python caller can pass it: an endpoint object or a tensor. -/
inductive EndpointArg
  | endpointV (e : Endpoint)
  | tensorV (t : Tensor)
deriving DecidableEq, Repr

/-- The text-causal-LM endpoint client (class TextCausalLMDendrite in
src): the normalized wallet and endpoint, the receptor built from them,
and the two configured serializer identifiers. -/
structure TextCausalLMDendrite where
  wallet : Wallet
  endpoint : Endpoint
  receptor : Receptor
  text_inputs_serializer_type : SerializerType
  hidden_states_serializer_type : SerializerType
deriving DecidableEq, Repr

namespace TextCausalLMDendrite

/-- Constructor of TextCausalLMDendrite: replaces a None wallet by a
fresh default wallet, converts a tensor endpoint through
endpoint.from_tensor, stores both, and builds the receptor over the
stored endpoint and wallet. -/
def init (endpointArg : EndpointArg) (walletArg : WalletArg)
    (text_inputs_serializer_type : SerializerType)
    (hidden_states_serializer_type : SerializerType) : TextCausalLMDendrite :=
  let wallet :=
    match walletArg with
    | WalletArg.noneV => defaultWallet
    | WalletArg.walletV w => w
  let endpoint :=
    match endpointArg with
    | EndpointArg.endpointV e => e
    | EndpointArg.tensorV t => endpoint.from_tensor t
  { wallet := wallet, endpoint := endpoint,
    receptor := { endpoint := endpoint, wallet := wallet },
    text_inputs_serializer_type := text_inputs_serializer_type,
    hidden_states_serializer_type := hidden_states_serializer_type }

end TextCausalLMDendrite

/-- Wire request of the causal-LM forward call
(bittensor.ForwardTextCausalLMRequest). -/
structure ForwardTextCausalLMRequest where
  serialized_text_inputs : Bytes
  text_inputs_serializer_type : SerializerType
  hidden_states_serializer_type : SerializerType
deriving DecidableEq, Repr

/-- The metadata tuple attached to the causal-LM transport invocation:
the rpc auth header tag, the signature from the signing capability, and
the protocol version integer rendered as a string. -/
def causalMetadata (signature : String) (versionAsInt : Nat) : List (String × String) :=
  [("rpc-auth-header", "Bittensor"),
   ("bittensor-signature", signature),
   ("bittensor-version", toString versionAsInt)]

/-- The request built by TextCausalLMDendrite.async_forward: the
serialized text together with the two configured serializer
identifiers. -/
def buildCausalRequest (d : TextCausalLMDendrite) (text_inputs : Tensor) :
    ForwardTextCausalLMRequest :=
  { serialized_text_inputs := (serializer d.text_inputs_serializer_type).encode text_inputs,
    text_inputs_serializer_type := d.text_inputs_serializer_type,
    hidden_states_serializer_type := d.hidden_states_serializer_type }

/-- Observable outcome of one causal-LM forward call: the returned
hidden states or the raised error, together with the request and
metadata handed to the transport invocation and the elapsed time. -/
structure CausalLMResult where
  result : Except CallError Tensor
  requestSent : ForwardTextCausalLMRequest
  metadataSent : List (String × String)
  elapsed : Nat

namespace TextCausalLMDendrite

/-- TextCausalLMDendrite.async_forward: serializes the text inputs with
the configured input serializer, builds the request, invokes the stub
with the request, the timeout and the metadata triple, awaits the
response bounded by the timeout (asyncio.wait_for raises TimeoutError
when the deadline elapses first), and deserializes the hidden states
with the configured output serializer, raising on a response the
serializer cannot decode. -/
def async_forward (d : TextCausalLMDendrite) (text_inputs : Tensor)
    (timeout : Nat) (versionAsInt : Nat) (transport : TransportBehaviour) :
    CausalLMResult :=
  let request := buildCausalRequest d text_inputs
  let metadata := causalMetadata d.receptor.sign versionAsInt
  let outcome : Except CallError Tensor × Nat :=
    match transport with
    | TransportBehaviour.never => (Except.error CallError.TimeoutError, timeout)
    | TransportBehaviour.failsAt t =>
        if timeout ≤ t then (Except.error CallError.TimeoutError, timeout)
        else (Except.error CallError.TransportError, t)
    | TransportBehaviour.respondsAt t hidden_states_bytes =>
        if timeout ≤ t then (Except.error CallError.TimeoutError, timeout)
        else
          match (serializer d.hidden_states_serializer_type).decode hidden_states_bytes with
          | none => (Except.error CallError.MalformedResponseError, t)
          | some hidden_states => (Except.ok hidden_states, t)
  { result := outcome.1, requestSent := request,
    metadataSent := metadata, elapsed := outcome.2 }

/-- TextCausalLMDendrite.forward: runs async_forward to completion on
the event loop and returns its result. -/
def forward (d : TextCausalLMDendrite) (text_inputs : Tensor)
    (timeout : Nat) (versionAsInt : Nat) (transport : TransportBehaviour) :
    CausalLMResult :=
  d.async_forward text_inputs timeout versionAsInt transport

end TextCausalLMDendrite

/-! Helper lemmas about the terminal states of Dendrite.apply. -/

theorem apply_call_unchanged (fc : TextToImageForwardCall) (tr : TransportBehaviour)
    (h : (Dendrite.apply fc tr).state ≠ CallState.Completed) :
    (Dendrite.apply fc tr).call = fc := by
  cases tr with
  | never => rfl
  | failsAt t =>
      by_cases hts : fc.timeout ≤ t <;> simp [Dendrite.apply, hts]
  | respondsAt t payload =>
      by_cases hts : fc.timeout ≤ t
      · simp [Dendrite.apply, hts]
      · cases hd : decodeForwardTextToImageResponse payload with
        | none => simp [Dendrite.apply, hts, hd]
        | some resp => exact absurd (by simp [Dendrite.apply, hts, hd]) h

theorem apply_completed_char (fc : TextToImageForwardCall) (tr : TransportBehaviour)
    (h : (Dendrite.apply fc tr).state = CallState.Completed) :
    ∃ t payload resp,
      tr = TransportBehaviour.respondsAt t payload
      ∧ decodeForwardTextToImageResponse payload = some resp
      ∧ (Dendrite.apply fc tr).call = fc.apply_response_proto resp := by
  cases tr with
  | never => simp [Dendrite.apply] at h
  | failsAt t =>
      by_cases hts : fc.timeout ≤ t <;> simp [Dendrite.apply, hts] at h
  | respondsAt t payload =>
      by_cases hts : fc.timeout ≤ t
      · simp [Dendrite.apply, hts] at h
      · cases hd : decodeForwardTextToImageResponse payload with
        | none => simp [Dendrite.apply, hts, hd] at h
        | some resp =>
            exact ⟨t, payload, resp, rfl, hd, by simp [Dendrite.apply, hts, hd]⟩

/-! Theorems settling the claims. -/

/-- C1: for every text input, timeout, return_call flag and transport
behaviour, the blocking entry point forward and the non-blocking entry
point async_forward of the text-to-image dendrite return the same
terminal result, and for every causal-LM dendrite, tensor input and
version the blocking forward returns the same terminal result as
async_forward: the two entry points differ only in how the caller
waits. -/
theorem forward_eq_async_forward (text : String) (timeout : Nat)
    (return_call : Bool) (tr : TransportBehaviour) :
    TextToImageDendrite.forward text timeout return_call tr
      = TextToImageDendrite.async_forward text timeout return_call tr
    ∧ ∀ (d : TextCausalLMDendrite) (ti : Tensor) (v : Nat),
        d.forward ti timeout v tr = d.async_forward ti timeout v tr :=
  ⟨rfl, fun _ _ _ => rfl⟩

/-- C2: the image output field of a text-to-image descriptor is the
empty initial value at construction, stays at that value in every
execution whose terminal state is not Completed (in particular Failed
and TimedOut), and in a Completed execution it is populated exactly
once, by apply_response_proto with the decoded response. -/
theorem output_unset_until_success (text : String) (timeout : Nat)
    (tr : TransportBehaviour) :
    (TextToImageForwardCall.init text timeout).image = emptyImage
    ∧ ((Dendrite.apply (TextToImageForwardCall.init text timeout) tr).state
          ≠ CallState.Completed →
        (Dendrite.apply (TextToImageForwardCall.init text timeout) tr).call.image
          = emptyImage)
    ∧ ((Dendrite.apply (TextToImageForwardCall.init text timeout) tr).state
          = CallState.Completed →
        ∃ t payload resp,
          tr = TransportBehaviour.respondsAt t payload
          ∧ decodeForwardTextToImageResponse payload = some resp
          ∧ (Dendrite.apply (TextToImageForwardCall.init text timeout) tr).call
              = (TextToImageForwardCall.init text timeout).apply_response_proto resp
          ∧ (Dendrite.apply (TextToImageForwardCall.init text timeout) tr).call.image
              = resp.image) := by
  refine ⟨by rfl, ?_, ?_⟩
  · intro h
    rw [apply_call_unchanged _ _ h]
    rfl
  · intro h
    obtain ⟨t, payload, resp, h1, h2, h3⟩ := apply_completed_char _ _ h
    exact ⟨t, payload, resp, h1, h2, h3, by rw [h3]; rfl⟩

/-- Witness for C2 at a concrete input: with a transport that never
answers the terminal state is not Completed and the image field stays
empty. -/
theorem output_unset_until_success_witness :
    ((Dendrite.apply (TextToImageForwardCall.init "ab" 5) TransportBehaviour.never).state
        ≠ CallState.Completed)
    ∧ (Dendrite.apply (TextToImageForwardCall.init "ab" 5) TransportBehaviour.never).call.image
        = emptyImage :=
  ⟨by decide, (output_unset_until_success "ab" 5 TransportBehaviour.never).2.1 (by decide)⟩

/-- C3: with a transport that never answers, a text-to-image call
reaches the TimedOut terminal state with elapsed time at or after the
configured timeout and the image output still at its empty initial
value, and a causal-LM call raises TimeoutError with elapsed time at or
after the configured timeout. -/
theorem timeout_at_or_after (text : String) (timeout : Nat) :
    (Dendrite.apply (TextToImageForwardCall.init text timeout) TransportBehaviour.never).state
        = CallState.TimedOut
    ∧ timeout ≤
        (Dendrite.apply (TextToImageForwardCall.init text timeout) TransportBehaviour.never).elapsed
    ∧ (Dendrite.apply (TextToImageForwardCall.init text timeout) TransportBehaviour.never).call.image
        = emptyImage
    ∧ ∀ (d : TextCausalLMDendrite) (ti : Tensor) (v : Nat),
        (d.async_forward ti timeout v TransportBehaviour.never).result
            = Except.error CallError.TimeoutError
        ∧ timeout ≤ (d.async_forward ti timeout v TransportBehaviour.never).elapsed :=
  ⟨rfl, Nat.le_refl _, rfl, fun _ _ _ => ⟨rfl, Nat.le_refl _⟩⟩

/-- C4: when the transport answers before the timeout with bytes the
configured decoding cannot interpret, the text-to-image call terminates
in Failed with MalformedResponseError and never in Completed;
apply_response_proto writes exactly the response image into the image
field and touches no other field; and the causal-LM call raises
MalformedResponseError when the configured output serializer cannot
decode the response. -/
theorem malformed_response_fails (text : String) (timeout t : Nat) (payload : Bytes)
    (hlt : t < timeout) (hbad : decodeForwardTextToImageResponse payload = none) :
    (Dendrite.apply (TextToImageForwardCall.init text timeout)
        (TransportBehaviour.respondsAt t payload)).state
      = CallState.Failed CallError.MalformedResponseError
    ∧ (Dendrite.apply (TextToImageForwardCall.init text timeout)
        (TransportBehaviour.respondsAt t payload)).state ≠ CallState.Completed
    ∧ (∀ (c : TextToImageForwardCall) (resp : ForwardTextToImageResponse),
        (c.apply_response_proto resp).image = resp.image
        ∧ (c.apply_response_proto resp).text = c.text
        ∧ (c.apply_response_proto resp).timeout = c.timeout)
    ∧ ∀ (d : TextCausalLMDendrite) (ti : Tensor) (v : Nat) (hs : Bytes),
        (serializer d.hidden_states_serializer_type).decode hs = none →
        (d.async_forward ti timeout v (TransportBehaviour.respondsAt t hs)).result
            = Except.error CallError.MalformedResponseError := by
  have hn : ¬ timeout ≤ t := Nat.not_le.mpr hlt
  refine ⟨?_, ?_, fun c resp => ⟨rfl, rfl, rfl⟩, ?_⟩
  · simp [Dendrite.apply, TextToImageForwardCall.init, hn, hbad]
  · simp [Dendrite.apply, TextToImageForwardCall.init, hn, hbad]
  · intro d ti v hs hdec
    simp [TextCausalLMDendrite.async_forward, hn, hdec]

/-- Witness for C4 at a concrete input: one byte claiming a longer
prefix than remains is undecodable, and the call fails with
MalformedResponseError. -/
theorem malformed_response_fails_witness :
    (0 < 1 ∧ decodeForwardTextToImageResponse [1] = none)
    ∧ (Dendrite.apply (TextToImageForwardCall.init "a" 1)
        (TransportBehaviour.respondsAt 0 [1])).state
      = CallState.Failed CallError.MalformedResponseError :=
  ⟨⟨by decide, by decide⟩,
    (malformed_response_fails "a" 1 0 [1] (by decide) (by decide)).1⟩

/-- C5 counterexample: at text x, timeout 5, return_call false and a
transport that never answers, the call reaches the TimedOut terminal
state, yet the facade hands back only the bare initial empty payload
and no error is surfaced to the caller — the claim that the error is
surfaced fails on this input. -/
theorem payload_only_error_dropped_counterexample :
    (Dendrite.apply (TextToImageForwardCall.init "x" 5) TransportBehaviour.never).state
        = CallState.TimedOut
    ∧ TextToImageDendrite.forward "x" 5 false TransportBehaviour.never
        = ForwardResult.imageR emptyImage
    ∧ surfacedError (TextToImageDendrite.forward "x" 5 false TransportBehaviour.never)
        = none := by
  decide

/-- C5 amended: in the payload-only shape (return_call false) a
text-to-image call that does not complete returns only the initial
empty payload and surfaces no error to the caller — the error stays on
the discarded descriptor; the causal-LM facade, by contrast, raises
each of its terminal errors explicitly: TimeoutError when the transport
never answers, TransportError when it fails before the deadline, and
MalformedResponseError when its answer cannot be decoded. -/
theorem payload_only_error_dropped (text : String) (timeout : Nat)
    (tr : TransportBehaviour)
    (h : (Dendrite.apply (TextToImageForwardCall.init text timeout) tr).state
          ≠ CallState.Completed) :
    TextToImageDendrite.forward text timeout false tr = ForwardResult.imageR emptyImage
    ∧ surfacedError (TextToImageDendrite.forward text timeout false tr) = none
    ∧ (∀ (d : TextCausalLMDendrite) (ti : Tensor) (v : Nat),
        (d.async_forward ti timeout v TransportBehaviour.never).result
          = Except.error CallError.TimeoutError)
    ∧ (∀ (d : TextCausalLMDendrite) (ti : Tensor) (v t : Nat), t < timeout →
        (d.async_forward ti timeout v (TransportBehaviour.failsAt t)).result
          = Except.error CallError.TransportError)
    ∧ (∀ (d : TextCausalLMDendrite) (ti : Tensor) (v t : Nat) (hs : Bytes),
        t < timeout →
        (serializer d.hidden_states_serializer_type).decode hs = none →
        (d.async_forward ti timeout v (TransportBehaviour.respondsAt t hs)).result
          = Except.error CallError.MalformedResponseError) := by
  have hc := apply_call_unchanged _ _ h
  have h1 : TextToImageDendrite.forward text timeout false tr
      = ForwardResult.imageR emptyImage := by
    show ForwardResult.imageR
        (Dendrite.apply (TextToImageForwardCall.init text timeout) tr).call.image
      = ForwardResult.imageR emptyImage
    rw [hc]
    rfl
  refine ⟨h1, by rw [h1]; rfl, fun _ _ _ => rfl, ?_, ?_⟩
  · intro d ti v t hlt
    have hn : ¬ timeout ≤ t := Nat.not_le.mpr hlt
    simp [TextCausalLMDendrite.async_forward, hn]
  · intro d ti v t hs hlt hdec
    have hn : ¬ timeout ≤ t := Nat.not_le.mpr hlt
    simp [TextCausalLMDendrite.async_forward, hn, hdec]

/-- Witness for C5 amended at a concrete input: a never-answering
transport does not complete, and the payload-only caller receives the
empty image with no surfaced error. -/
theorem payload_only_error_dropped_witness :
    ((Dendrite.apply (TextToImageForwardCall.init "y" 3) TransportBehaviour.never).state
        ≠ CallState.Completed)
    ∧ TextToImageDendrite.forward "y" 3 false TransportBehaviour.never
        = ForwardResult.imageR emptyImage :=
  ⟨by decide, (payload_only_error_dropped "y" 3 TransportBehaviour.never (by decide)).1⟩

/-- C6: for every entry of the serializer registry and every tensor
payload, decoding the encoding of the payload returns exactly the
original payload. -/
theorem serializer_roundtrip (st : SerializerType) (entry : SerializerEntry)
    (h : (st, entry) ∈ serializerRegistry) (payload : Tensor) :
    entry.decode (entry.encode payload) = some payload := by
  have he : entry = msgpackEntry := by
    simp only [serializerRegistry, List.mem_singleton, Prod.mk.injEq] at h
    exact h.2
  rw [he]
  exact msgpackDecode_msgpackEncode payload

/-- Witness for C6 at a concrete input: the MSGPACK entry is registered
and round-trips a concrete tensor. -/
theorem serializer_roundtrip_witness :
    (SerializerType.MSGPACK, msgpackEntry) ∈ serializerRegistry
    ∧ msgpackEntry.decode (msgpackEntry.encode { shape := [2], data := [3, -1] })
        = some { shape := [2], data := [3, -1] } :=
  ⟨by simp [serializerRegistry],
    serializer_roundtrip SerializerType.MSGPACK msgpackEntry
      (by simp [serializerRegistry]) { shape := [2], data := [3, -1] }⟩

/-- C7: for every text input the input shape of a text-to-image call is
the singleton list holding the length of the text, and in particular a
call constructed over the empty string has input shape of length 0. -/
theorem input_shape_eq_text_length (text : String) (timeout : Nat) :
    (TextToImageForwardCall.init text timeout).get_inputs_shape = [text.length]
    ∧ (TextToImageForwardCall.init "" blocktime).get_inputs_shape = [0] :=
  ⟨rfl, rfl⟩

/-- C8: the metadata attached to every causal-LM transport invocation is
exactly the ordered triple of the rpc auth header tag, the signature
produced by the signing capability, and the protocol version integer
rendered as a string. -/
theorem metadata_fixed_triple (d : TextCausalLMDendrite) (ti : Tensor)
    (timeout v : Nat) (tr : TransportBehaviour) :
    (d.async_forward ti timeout v tr).metadataSent
      = [("rpc-auth-header", "Bittensor"),
         ("bittensor-signature", d.receptor.sign),
         ("bittensor-version", toString v)]
    ∧ (d.async_forward ti timeout v tr).metadataSent.length = 3 :=
  ⟨rfl, rfl⟩

/-- C9: get_request_proto is a pure deterministic function of the text
input field — two descriptors with equal text fields build equal wire
requests, whatever their other fields — and invoking it leaves the
descriptor unchanged; likewise the causal-LM request handed to the
transport is exactly the deterministic buildCausalRequest of the
dendrite configuration and the tensor input. -/
theorem build_request_pure (c1 c2 : TextToImageForwardCall) (h : c1.text = c2.text) :
    c1.get_request_proto = c2.get_request_proto
    ∧ (∀ c : TextToImageForwardCall,
        c.get_request_proto_run.2 = c
        ∧ c.get_request_proto_run.1 = c.get_request_proto)
    ∧ ∀ (d : TextCausalLMDendrite) (ti : Tensor) (timeout v : Nat)
        (tr : TransportBehaviour),
        (d.async_forward ti timeout v tr).requestSent = buildCausalRequest d ti := by
  refine ⟨?_, fun c => ⟨rfl, rfl⟩, fun d ti timeout v tr => rfl⟩
  simp [TextToImageForwardCall.get_request_proto, h]

/-- Witness for C9 at concrete inputs: two descriptors sharing only the
text field build the same request. -/
theorem build_request_pure_witness :
    ({ text := "t", timeout := 3, image := [] } : TextToImageForwardCall).text
        = ({ text := "t", timeout := 7, image := [1, 2] } : TextToImageForwardCall).text
    ∧ ({ text := "t", timeout := 3, image := [] } : TextToImageForwardCall).get_request_proto
        = ({ text := "t", timeout := 7, image := [1, 2] } : TextToImageForwardCall).get_request_proto :=
  ⟨by decide,
    (build_request_pure { text := "t", timeout := 3, image := [] }
      { text := "t", timeout := 7, image := [1, 2] } (by decide)).1⟩

/-- C10: the TextCausalLMDendrite constructor normalizes its arguments:
a None wallet becomes the fresh default wallet, a wallet object is kept
as passed, a tensor endpoint is converted through endpoint.from_tensor,
an endpoint object is kept as passed, and the receptor is built over
the stored endpoint and wallet — so the client always holds a wallet
object and an endpoint object after construction. -/
theorem init_normalizes_arguments (epArg : EndpointArg) (wArg : WalletArg)
    (tist hist : SerializerType) :
    (wArg = WalletArg.noneV →
      (TextCausalLMDendrite.init epArg wArg tist hist).wallet = defaultWallet)
    ∧ (∀ w, wArg = WalletArg.walletV w →
        (TextCausalLMDendrite.init epArg wArg tist hist).wallet = w)
    ∧ (∀ t, epArg = EndpointArg.tensorV t →
        (TextCausalLMDendrite.init epArg wArg tist hist).endpoint
          = endpoint.from_tensor t)
    ∧ (∀ e, epArg = EndpointArg.endpointV e →
        (TextCausalLMDendrite.init epArg wArg tist hist).endpoint = e)
    ∧ (TextCausalLMDendrite.init epArg wArg tist hist).receptor
        = { endpoint := (TextCausalLMDendrite.init epArg wArg tist hist).endpoint,
            wallet := (TextCausalLMDendrite.init epArg wArg tist hist).wallet } := by
  refine ⟨?_, ?_, ?_, ?_, ?_⟩
  · intro h; subst h; cases epArg <;> rfl
  · intro w h; subst h; cases epArg <;> rfl
  · intro t h; subst h; cases wArg <;> rfl
  · intro e h; subst h; cases wArg <;> rfl
  · cases wArg <;> cases epArg <;> rfl

/-- Witness for C10 at a concrete input: a None wallet together with a
tensor endpoint is normalized to the default wallet. -/
theorem init_normalizes_arguments_witness :
    (WalletArg.noneV = WalletArg.noneV)
    ∧ (TextCausalLMDendrite.init (EndpointArg.tensorV { shape := [1], data := [5] })
        WalletArg.noneV SerializerType.MSGPACK SerializerType.MSGPACK).wallet
      = defaultWallet :=
  ⟨rfl,
    (init_normalizes_arguments (EndpointArg.tensorV { shape := [1], data := [5] })
      WalletArg.noneV SerializerType.MSGPACK SerializerType.MSGPACK).1 rfl⟩

end Bittensor
